import Mathlib

/-!
Verification of the proxy-tunneling connection layer (proxy-agents):
a shallow embedding, in Lean 4, of the cache, admission-accounting,
CONNECT-tunnel and SOCKS-tunnel logic of the source packages
(`agent-base`, `http-proxy-agent`, `https-proxy-agent`,
`socks-proxy-agent`, `proxy-agent`), together with theorems settling
the specified properties of those components.

Conventions of the embedding:
* A JavaScript `Map` is modelled as an association list in insertion
  order (`JsMap`): `set` on an existing key updates the entry in place
  (JS `Map` keeps the original insertion position), `set` on a fresh
  key appends at the end, `delete` removes the entry, and
  `keys().next().value` is the head key.
* A JavaScript plain object used as a header dictionary has the same
  semantics (case-sensitive keys, insertion order).
* JS timestamps (`Date.now()`) and socket counters are modelled as
  `Int`.
* Asynchronous control flow is modelled by explicit state passing and,
  where ordering matters, by explicit event traces.
-/

namespace JsMap

variable {K V : Type} [DecidableEq K]

/-- `Map.prototype.get`: the value stored under `k`, if any. -/
def get (m : List (K × V)) (k : K) : Option V :=
  match m with
  | [] => none
  | (k', v) :: rest => if k' = k then some v else get rest k

/-- `Map.prototype.has`. -/
def hasKey (m : List (K × V)) (k : K) : Bool :=
  (get m k).isSome

/-- `Map.prototype.set`: updating an existing key keeps its insertion
position; a fresh key is appended at the end (JS `Map` semantics). -/
def set (m : List (K × V)) (k : K) (v : V) : List (K × V) :=
  match m with
  | [] => [(k, v)]
  | (k', v') :: rest =>
    if k' = k then (k, v) :: rest else (k', v') :: set rest k v

/-- `Map.prototype.delete`: removes the entry stored under `k`. -/
def deleteKey (m : List (K × V)) (k : K) : List (K × V) :=
  match m with
  | [] => []
  | (k', v') :: rest =>
    if k' = k then rest else (k', v') :: deleteKey rest k

/-- `map.keys().next().value`: the first (oldest-inserted) key. -/
def firstKey (m : List (K × V)) : Option K :=
  (m.head?).map (·.1)

end JsMap

/-! ## https-proxy-agent: bounded TLS-session cache and unbounded
common-headers cache (`packages/https-proxy-agent/src/index.ts`) -/

namespace HttpsProxy

/-- `CACHE_MAX_SIZE = 100` — the configured bound of the TLS session
cache in `packages/https-proxy-agent/src/index.ts`. -/
def CACHE_MAX_SIZE : Nat := 100

/-- The `session` listener (lines 148-156 / 249-256): when the session
cache has reached `CACHE_MAX_SIZE`, delete the first (oldest-inserted)
key, then `set` the new session. -/
def storeTlsSession (cache : List (String × Nat)) (key : String)
    (session : Nat) : List (String × Nat) :=
  let cache :=
    if CACHE_MAX_SIZE ≤ cache.length then
      match JsMap.firstKey cache with
      | some fk => JsMap.deleteKey cache fk
      | none => cache
    else cache
  JsMap.set cache key session

/-- The common-headers cache write (lines 199-202):
`commonHeadersCache.set(headerCacheKey, { ...headers })` — a plain
`Map.set` with no size check and no eviction anywhere in the file. -/
def commonHeadersCacheSet (cache : List (String × Nat)) (key : String)
    (headers : Nat) : List (String × Nat) :=
  JsMap.set cache key headers

/-- Filling the common-headers cache with distinct keys
`"h0", "h1", ...` (one per distinct `proxy:host:port` combination). -/
def fillCommonHeaders (n : Nat) : List (String × Nat) :=
  (List.range n).foldl
    (fun c i => commonHeadersCacheSet c (String.append "h" (Nat.repr i)) i) []

/-- The parsed reply of `parseProxyResponse`: the status code of the
proxy's answer to `CONNECT`, plus every byte read past the header
terminator (`buffered`), which the parser preserves. -/
structure ProxyResponse where
  statusCode : Nat
  buffered : String
  deriving DecidableEq

/-- The observable events of one CONNECT tunnel attempt
(`HttpsProxyAgent.connect`, lines 205-310). -/
inductive TunnelEvent
  /-- `socket.write(...)` on the real proxy socket. -/
  | writeProxySocket (data : String)
  /-- The awaited `parseProxyResponse` result arrives. -/
  | proxyResponse (statusCode : Nat)
  /-- `socket.destroy()` on the real proxy socket. -/
  | destroyProxySocket
  /-- `connect` resolves, handing a socket to the caller's HTTP stack:
  `real` tells whether it is (backed by) the real proxy socket,
  `writable` whether the caller can write to it. -/
  | returnSocket (real : Bool) (writable : Bool)
  /-- The caller's HTTP stack attempts to write its (possibly
  credential-bearing) request; on the fake socket
  (`new net.Socket({ writable: false })`) the write is refused and
  never reaches the proxy. -/
  | callerWriteRefused (data : String)
  /-- `s.push(...)` onto the caller-visible stream: `some bytes`
  replays buffered data, `none` is `push(null)`, end-of-stream. -/
  | pushToCaller (data : Option String)
  deriving DecidableEq

/-- `CONNECT host:port HTTP/1.1\r\n` + `name: value\r\n` per header
(lines 205-209), plus the terminating blank line added by
`socket.write(payload + "\r\n")` (line 213). -/
def connectPayload (host : String) (port : Nat)
    (headers : List (String × String)) : String :=
  let requestLine :=
    "CONNECT " ++ host ++ ":" ++ Nat.repr port ++ " HTTP/1.1\r\n"
  let headerBlock := headers.foldl
    (fun acc p => acc ++ p.1 ++ ": " ++ p.2 ++ "\r\n") ""
  requestLine ++ headerBlock ++ "\r\n"

/-- The event trace of one CONNECT tunnel attempt, as performed by
`HttpsProxyAgent.connect` (lines 205-310) followed by the caller's
HTTP stack writing its own request bytes `callerRequest` to whichever
socket `connect` returned:
* the only write `connect` itself makes on the proxy socket is the
  CONNECT payload (line 213), before the response is awaited;
* status 200: the real socket (possibly TLS-wrapped in place) is
  returned and the caller writes to it (lines 219-278);
* any other status: `socket.destroy()` immediately (line 292), then a
  fresh non-writable fake socket is returned (lines 294-295), the
  caller's write is refused, and once the caller attaches
  (`req.once('socket', ...)`, lines 298-307) the buffered leftover is
  replayed followed by `push(null)`. -/
def tunnelAttemptTrace (payload callerRequest : String)
    (resp : ProxyResponse) : List TunnelEvent :=
  [TunnelEvent.writeProxySocket payload,
   TunnelEvent.proxyResponse resp.statusCode] ++
  (if resp.statusCode = 200 then
    [TunnelEvent.returnSocket true true,
     TunnelEvent.writeProxySocket callerRequest]
  else
    [TunnelEvent.destroyProxySocket,
     TunnelEvent.returnSocket false false,
     TunnelEvent.callerWriteRefused callerRequest,
     TunnelEvent.pushToCaller (some resp.buffered),
     TunnelEvent.pushToCaller none])

/-- The data of every write that actually reaches the proxy socket in
a trace. -/
def proxySocketWrites (tr : List TunnelEvent) : List String :=
  tr.filterMap fun e =>
    match e with
    | TunnelEvent.writeProxySocket d => some d
    | _ => none

/-- The prefix of a trace strictly before the proxy's response. -/
def beforeResponse (tr : List TunnelEvent) : List TunnelEvent :=
  tr.takeWhile fun e =>
    match e with
    | TunnelEvent.proxyResponse _ => false
    | _ => true

/-- What the caller observes on the returned stream: each `push`. -/
def callerObservations (tr : List TunnelEvent) : List (Option String) :=
  tr.filterMap fun e =>
    match e with
    | TunnelEvent.pushToCaller d => some d
    | _ => none

end HttpsProxy

/-! ## agent-base: admission accounting and `isSecureEndpoint`
(the `Agent` broker class, `src/unnamed/part_003`) -/

namespace AgentBase

/-- The admission-accounting state of the broker (`http.Agent`
bookkeeping as used by `agent-base`): the per-origin socket lists hold
the ids of the fake placeholder sockets, `totalSocketCount` is the
pool's live-connection counter, `nextId` generates fresh placeholder
ids, and `maxSockets`/`maxTotalSockets` are `none` for `Infinity`
(the Node.js default) or `some n` for a finite bound. -/
structure PoolState where
  sockets : List (String × List Nat)
  totalSocketCount : Int
  nextId : Nat
  maxSockets : Option Nat
  maxTotalSockets : Option Nat
  deriving DecidableEq

/-- `Agent.incrementSockets` (lines 104-127): if both `maxSockets` and
`maxTotalSockets` are `Infinity`, return `null` and change nothing;
otherwise create the origin's list if absent, push a fresh fake
socket, and increment `totalSocketCount`. -/
def incrementSockets (st : PoolState) (name : String) :
    Option Nat × PoolState :=
  if st.maxSockets = none ∧ st.maxTotalSockets = none then
    (none, st)
  else
    let lst := (JsMap.get st.sockets name).getD []
    let fake := st.nextId
    (some fake,
      { st with
        sockets := JsMap.set st.sockets name (lst ++ [fake])
        totalSocketCount := st.totalSocketCount + 1
        nextId := st.nextId + 1 })

/-- `Agent.decrementSockets` (lines 129-144): a no-op when the origin
has no list or the placeholder is `null`; otherwise remove the (first
occurrence of the) placeholder, decrement `totalSocketCount`, and
delete the origin's entry when its list becomes empty. -/
def decrementSockets (st : PoolState) (name : String)
    (socket : Option Nat) : PoolState :=
  match JsMap.get st.sockets name, socket with
  | none, _ => st
  | some _, none => st
  | some lst, some s =>
    if s ∈ lst then
      let lst' := lst.erase s
      { st with
        sockets :=
          if lst'.isEmpty then JsMap.deleteKey st.sockets name
          else JsMap.set st.sockets name lst'
        totalSocketCount := st.totalSocketCount - 1 }
    else st

/-- How the abstract `connect()` settles, from `createSocket`'s point
of view (lines 172-211): a synchronous non-thenable result (a `Duplex`
socket or a delegated `http.Agent`), or a promise that later resolves
(with a socket or an agent) or rejects. -/
inductive ConnectOutcome
  | syncSocket
  | syncAgent
  | asyncSocket
  | asyncAgent
  | asyncError
  deriving DecidableEq

/-- The accounting-relevant events of one `createSocket` run. -/
inductive BrokerEvent
  /-- The `incrementSockets` call, with the placeholder it returned. -/
  | increment (name : String) (fake : Option Nat)
  /-- `this.connect(req, connectOpts)` is invoked. -/
  | connectCall
  /-- The `decrementSockets` call, with the placeholder passed. -/
  | decrement (name : String) (fake : Option Nat)
  deriving DecidableEq

/-- `Agent.createSocket` (lines 158-212): reserve the placeholder via
`incrementSockets`, invoke `connect`, and on each settle path —
synchronous result (lines 176-189), asynchronous fulfilment
(lines 193-206), asynchronous rejection (lines 207-210) — call
`decrementSockets(name, fakeSocket)` once. Returns the final pool
state and the ordered event trace. -/
def createSocket (st : PoolState) (name : String)
    (outcome : ConnectOutcome) : PoolState × List BrokerEvent :=
  let (fake, st1) := incrementSockets st name
  let st2 :=
    match outcome with
    | ConnectOutcome.syncSocket => decrementSockets st1 name fake
    | ConnectOutcome.syncAgent => decrementSockets st1 name fake
    | ConnectOutcome.asyncSocket => decrementSockets st1 name fake
    | ConnectOutcome.asyncAgent => decrementSockets st1 name fake
    | ConnectOutcome.asyncError => decrementSockets st1 name fake
  (st2,
    [BrokerEvent.increment name fake, BrokerEvent.connectCall,
     BrokerEvent.decrement name fake])

/-- Number of `increment` events in a broker trace. -/
def incrementCount (tr : List BrokerEvent) : Nat :=
  (tr.filter fun e =>
    match e with
    | BrokerEvent.increment _ _ => true
    | _ => false).length

/-- Number of `decrement` events in a broker trace. -/
def decrementCount (tr : List BrokerEvent) : Nat :=
  (tr.filter fun e =>
    match e with
    | BrokerEvent.decrement _ _ => true
    | _ => false).length

/-- The fields of the options object that `isSecureEndpoint` inspects:
`secureEndpoint` when it is a boolean, `protocol` when it is a
string (`none` models `undefined`). -/
structure SecOpts where
  secureEndpoint : Option Bool
  protocol : Option String
  deriving DecidableEq

/-- The single-slot cache in the agent's internal state
(`cachedEndpointKey` / `cachedSecureEndpoint`, lines 28-30). -/
structure SecCacheState where
  cachedEndpointKey : Option String
  cachedSecureEndpoint : Option Bool
  deriving DecidableEq

/-- The template
`options ? (options.protocol || '') + ':' + (options.secureEndpoint || '') : 'no-options'`
(lines 71-73); a JS falsy value (`undefined`, `false`) renders as `''`
and `true` renders as `'true'`. -/
def secCacheKey (options : Option SecOpts) : String :=
  match options with
  | some o =>
    (o.protocol.getD "") ++ ":" ++
      (match o.secureEndpoint with
       | some true => "true"
       | some false => ""
       | none => "")
  | none => "no-options"

/-- Does `pat` occur at the start of `s`? (helper for substring
search over the character list of a string). -/
def charsStartWith : List Char → List Char → Bool
  | [], _ => true
  | _ :: _, [] => false
  | p :: ps, c :: cs => p = c && charsStartWith ps cs

/-- `s.indexOf(pat) !== -1`: does `pat` occur anywhere in `s`? -/
def charsContain : List Char → List Char → Bool
  | [], pat => charsStartWith pat []
  | c :: cs, pat => charsStartWith pat (c :: cs) || charsContain cs pat

/-- `stack.indexOf('(https.js:') !== -1 || stack.indexOf('node:https:') !== -1`
(line 88): whether the captured stack mentions the `https` module. -/
def stackIndicatesHttps (stack : String) : Bool :=
  charsContain stack.data "(https.js:".data ||
    charsContain stack.data "node:https:".data

/-- `Agent.isSecureEndpoint` (lines 53-96): explicit boolean
`secureEndpoint` wins; else a string `protocol` is compared with
`'https:'`; else the fallback consults the single-slot cache under
`secCacheKey options` and, on a cache miss, inspects the current call
stack and overwrites the cache slot with the new key and result. -/
def isSecureEndpoint (st : SecCacheState) (options : Option SecOpts)
    (stack : String) : Bool × SecCacheState :=
  match options with
  | some o =>
    match o.secureEndpoint with
    | some b => (b, st)
    | none =>
      match o.protocol with
      | some p => (p = "https:", st)
      | none => isSecureFallback st options stack
  | none => isSecureFallback st options stack
where
  isSecureFallback (st : SecCacheState) (options : Option SecOpts)
      (stack : String) : Bool × SecCacheState :=
    let cacheKey := secCacheKey options
    if st.cachedEndpointKey = some cacheKey ∧
        st.cachedSecureEndpoint.isSome then
      (st.cachedSecureEndpoint.getD false, st)
    else
      let result := stackIndicatesHttps stack
      (result,
        { cachedEndpointKey := some cacheKey
          cachedSecureEndpoint := some result })

/-- Whether a call with these options falls through to the
stack-inspection fallback (no boolean `secureEndpoint`, no string
`protocol`). -/
def reachesFallback (options : Option SecOpts) : Prop :=
  match options with
  | some o => o.secureEndpoint = none ∧ o.protocol = none
  | none => True

end AgentBase

/-! ## socks-proxy-agent: URL parsing, client-side DNS resolution and
the DNS cache (`packages/socks-proxy-agent/src/index.ts`) -/

namespace SocksProxy

/-- The result of `parseSocksURL` that decides resolution behaviour:
`lookup` (must the client resolve DNS itself) and the SOCKS protocol
`type` (4 or 5). -/
structure SocksParsed where
  lookup : Bool
  type : Nat
  deriving DecidableEq

/-- `protocol.replace(':', '')` on a URL protocol: JS
`String.replace` with a string pattern removes the first
occurrence. -/
def removeFirstColon : List Char → List Char
  | [] => []
  | c :: cs => if c = ':' then cs else c :: removeFirstColon cs

/-- The scheme of a proxy URL protocol: `url.protocol.replace(':', '')`
(line 180). -/
def stripColon (protocol : String) : String :=
  String.mk (removeFirstColon protocol.data)

/-- `parseSocksURL` (lines 169-229), restricted to the fields the
claims are about: switch on `url.protocol.replace(':', '')`; `socks4`
and `socks5` set `lookup = true`; `socks4a`, `socks5h` and bare
`socks` leave `lookup = false`; any other scheme throws a synchronous
`TypeError`. -/
def parseSocksURL (protocol : String) :
    Except String SocksParsed :=
  let scheme := stripColon protocol
  if scheme = "socks4" then Except.ok { lookup := true, type := 4 }
  else if scheme = "socks4a" then Except.ok { lookup := false, type := 4 }
  else if scheme = "socks5" then Except.ok { lookup := true, type := 5 }
  else if scheme = "socks" then Except.ok { lookup := false, type := 5 }
  else if scheme = "socks5h" then Except.ok { lookup := false, type := 5 }
  else
    Except.error
      ("A socks protocol must be specified! Got: " ++ scheme)

/-- `DNS_CACHE_TTL = 5 * 60 * 1000` (line 22). -/
def DNS_CACHE_TTL : Int := 5 * 60 * 1000

/-- A DNS cache entry: `{ address, timestamp }` (lines 17-20). -/
structure DNSCacheEntry where
  address : String
  timestamp : Int
  deriving DecidableEq

/-- The destination-host computation of `SocksProxyAgent.connect`
(lines 337-376), with the external resolver modelled as a pure
successful `lookupFn`. Returns the host handed to the SOCKS
handshake, the updated DNS cache, and how many times the resolver was
invoked:
* `shouldLookup = false`: the literal hostname passes through, the
  cache is untouched and the resolver is never called;
* `shouldLookup = true`, cache enabled: a cached entry younger than
  `DNS_CACHE_TTL` is used as-is; otherwise the resolver is called and
  its result is stored under the hostname with the current time;
* `shouldLookup = true`, cache disabled: the resolver is called and
  nothing is stored. -/
def resolveDestinationHost (enableDNSCache shouldLookup : Bool)
    (cache : List (String × DNSCacheEntry)) (now : Int) (host : String)
    (lookupFn : String → String) :
    String × List (String × DNSCacheEntry) × Nat :=
  if shouldLookup then
    if enableDNSCache then
      match JsMap.get cache host with
      | some cached =>
        if now - cached.timestamp < DNS_CACHE_TTL then
          (cached.address, cache, 0)
        else
          let res := lookupFn host
          (res, JsMap.set cache host { address := res, timestamp := now }, 1)
      | none =>
        let res := lookupFn host
        (res, JsMap.set cache host { address := res, timestamp := now }, 1)
    else
      (lookupFn host, cache, 1)
  else
    (host, cache, 0)

end SocksProxy

/-! ## proxy-agent: proxy resolution cache, default-agent routing, and
the agent LRU (`packages/proxy-agent/src/index.ts`) -/

namespace ProxyDispatch

/-- `maxProxyCacheSize = 100` (line 145). -/
def maxProxyCacheSize : Nat := 100

/-- Where `ProxyAgent.connect` routes a request: one of the two
per-dispatcher default pooled agents (`this.httpsAgent` when
`secureEndpoint`, else `this.httpAgent`, line 217), or a proxying
agent for the resolved proxy URL. -/
inductive Route
  | defaultAgent (secure : Bool)
  | proxiedAgent (proxy : String)
  deriving DecidableEq

/-- The resolution step of `ProxyAgent.connect` (lines 193-218) with
the injected resolver's answer for this URL given as
`resolverResult` (`""` models a falsy "no proxy" answer): consult
`proxyResolutionCache`; on a miss call the resolver and store the
answer only when it is truthy, evicting the first key when the cache
is full; route to a default agent when the proxy is falsy. Returns
the route and the updated resolution cache. -/
def dispatcherResolve (cache : List (String × String)) (url : String)
    (resolverResult : String) (secureEndpoint : Bool) :
    Route × List (String × String) :=
  let step :
      String × List (String × String) :=
    match JsMap.get cache url with
    | some p => (p, cache)
    | none =>
      if resolverResult ≠ "" then
        let c1 :=
          if maxProxyCacheSize ≤ cache.length then
            match JsMap.firstKey cache with
            | some fk => if fk ≠ "" then JsMap.deleteKey cache fk else cache
            | none => cache
          else cache
        (resolverResult, JsMap.set c1 url resolverResult)
      else (resolverResult, cache)
  let proxy := step.1
  if proxy = "" then (Route.defaultAgent secureEndpoint, step.2)
  else (Route.proxiedAgent proxy, step.2)

/-- `max: 50` — the bound of the agent LRU (line 136). -/
def LRU_MAX : Nat := 50

/-- The agent LRU cache (`lru-cache@7`, constructed with
`dispose: (agent) => agent.destroy()` on line 137), modelled as its
entry list in recency order, least recently used first. Values are
agent ids. -/
def LruEntries := List (String × Nat)

/-- An `lru-cache@7` `set` of a key not already present, as performed
on a `connect` cache miss (line 244): when the cache is full, the
least-recently-used entry is evicted and `dispose` — which calls
`agent.destroy()` — runs on the evicted value. Returns the new entry
list and the ids destroyed by `dispose`. -/
def lruSetFresh (c : List (String × Nat)) (k : String) (v : Nat) :
    List (String × Nat) × List Nat :=
  if LRU_MAX ≤ c.length then
    match c with
    | [] => ([(k, v)], [])
    | (_, oldV) :: rest => (rest ++ [(k, v)], [oldV])
  else
    (c ++ [(k, v)], [])

/-- `ProxyAgent.destroy` (lines 252-263), projected onto the cached
agents: `this.cache.forEach((value) => value.destroy())` destroys each
cached agent once, then `this.cache.clear()` makes `lru-cache@7` run
`dispose` — `agent.destroy()` — on every entry a second time. Returns
the ordered list of `destroy()` calls on cached agents. -/
def proxyAgentDestroyCalls (c : List (String × Nat)) : List Nat :=
  c.map (·.2) ++ (c.reverse).map (·.2)

end ProxyDispatch

/-! ## http-proxy-agent: forward-proxy header merging
(`HttpProxyAgent.setRequestProps`, `src/unnamed/part_001`) -/

namespace HttpProxy

/-- JS truthiness of a possibly-absent header value: `undefined` and
`''` are falsy. -/
def jsTruthy (v : Option String) : Bool :=
  match v with
  | none => false
  | some s => s ≠ ""

/-- ASCII lowercasing of a header name (Node normalizes request
header names case-insensitively). -/
def lowerName (s : String) : String :=
  String.mk (s.data.map Char.toLower)

/-- `req.setHeader(name, value)`: Node stores request headers under a
case-insensitive key, so a later `setHeader` with any casing of the
same name overwrites the earlier value. -/
def reqSetHeader (hs : List (String × String)) (name value : String) :
    List (String × String) :=
  match hs with
  | [] => [(name, value)]
  | (n, v) :: rest =>
    if lowerName n = lowerName name then (name, value) :: rest
    else (n, v) :: reqSetHeader rest name value

/-- `req.getHeader(name)` — case-insensitive lookup. -/
def reqGetHeader (hs : List (String × String)) (name : String) :
    Option String :=
  match hs with
  | [] => none
  | (n, v) :: rest =>
    if lowerName n = lowerName name then some v
    else reqGetHeader rest name

/-- The headers object built by `setRequestProps` (lines 136-150):
start from a copy of the caller's proxy headers (a JS object with
case-sensitive keys); when the proxy URL embeds credentials, assign
`headers['Proxy-Authorization'] = cachedAuthHeader` unconditionally;
then assign the `Proxy-Connection` default only when
`headers['Proxy-Connection']` — an exact-case lookup — is falsy. -/
def buildForwardHeaders (proxyHeaders : List (String × String))
    (cachedAuthHeader : Option String) (cachedProxyConnection : String) :
    List (String × String) :=
  let headers := proxyHeaders
  let headers :=
    match cachedAuthHeader with
    | some a => JsMap.set headers "Proxy-Authorization" a
    | none => headers
  if jsTruthy (JsMap.get headers "Proxy-Connection") then headers
  else JsMap.set headers "Proxy-Connection" cachedProxyConnection

/-- The final loop of `setRequestProps` (lines 153-158): each truthy
header value is applied to the request with `req.setHeader`. -/
def applyHeadersToRequest (reqHeaders : List (String × String))
    (headers : List (String × String)) : List (String × String) :=
  headers.foldl
    (fun acc p => if p.2 ≠ "" then reqSetHeader acc p.1 p.2 else acc)
    reqHeaders

end HttpProxy

/-! ## Library lemmas for the `JsMap` model -/

theorem JsMap.get_set_self {K V : Type} [DecidableEq K]
    (m : List (K × V)) (k : K) (v : V) :
    JsMap.get (JsMap.set m k v) k = some v := by
  induction m with
  | nil => simp [JsMap.set, JsMap.get]
  | cons hd tl ih =>
    obtain ⟨k', v'⟩ := hd
    by_cases h : k' = k <;> simp [JsMap.set, JsMap.get, h, ih]

theorem JsMap.get_set_ne {K V : Type} [DecidableEq K]
    (m : List (K × V)) (k k' : K) (v : V) (h : k' ≠ k) :
    JsMap.get (JsMap.set m k' v) k = JsMap.get m k := by
  induction m with
  | nil => simp [JsMap.set, JsMap.get, h]
  | cons hd tl ih =>
    obtain ⟨k0, v0⟩ := hd
    by_cases h0 : k0 = k'
    · subst h0
      simp [JsMap.set, JsMap.get, h]
    · by_cases h1 : k0 = k
      · simp [JsMap.set, JsMap.get, h0, h1, Ne.symm h]
      · simp [JsMap.set, JsMap.get, h0, h1, ih]

theorem JsMap.length_set_le {K V : Type} [DecidableEq K]
    (m : List (K × V)) (k : K) (v : V) :
    (JsMap.set m k v).length ≤ m.length + 1 := by
  induction m with
  | nil => simp [JsMap.set]
  | cons hd tl ih =>
    obtain ⟨k', v'⟩ := hd
    by_cases h : k' = k
    · simp [JsMap.set, h]
    · simp only [JsMap.set, if_neg h, List.length_cons]
      omega

/-! ## C1 — CONNECT tunnel: credential isolation on failure -/

/-- **C1.** For every CONNECT tunnel attempt, the only bytes written to
the proxy socket before the proxy's response is the CONNECT payload
itself; and whenever the proxy answers with any status other than 200,
(i) nothing but that payload is ever written to the real proxy socket
— in particular no destination-bound or credential-bearing caller
bytes, (ii) immediately after the response the real proxy socket is
destroyed and a non-real, non-writable placeholder is returned,
(iii) the caller's own write onto the returned stream is refused, and
(iv) the caller observes exactly the buffered leftover response bytes
followed by end-of-stream. -/
theorem c1_connect_failure_isolation
    (payload callerRequest : String) (resp : HttpsProxy.ProxyResponse)
    (hfail : resp.statusCode ≠ 200) :
    HttpsProxy.proxySocketWrites
        (HttpsProxy.beforeResponse
          (HttpsProxy.tunnelAttemptTrace payload callerRequest resp)) =
      [payload] ∧
    HttpsProxy.proxySocketWrites
        (HttpsProxy.tunnelAttemptTrace payload callerRequest resp) =
      [payload] ∧
    (HttpsProxy.tunnelAttemptTrace payload callerRequest resp).take 4 =
      [HttpsProxy.TunnelEvent.writeProxySocket payload,
       HttpsProxy.TunnelEvent.proxyResponse resp.statusCode,
       HttpsProxy.TunnelEvent.destroyProxySocket,
       HttpsProxy.TunnelEvent.returnSocket false false] ∧
    HttpsProxy.TunnelEvent.callerWriteRefused callerRequest ∈
      HttpsProxy.tunnelAttemptTrace payload callerRequest resp ∧
    HttpsProxy.callerObservations
        (HttpsProxy.tunnelAttemptTrace payload callerRequest resp) =
      [some resp.buffered, none] := by
  refine ⟨?_, ?_, ?_, ?_, ?_⟩ <;>
    simp [HttpsProxy.tunnelAttemptTrace, hfail,
      HttpsProxy.proxySocketWrites, HttpsProxy.beforeResponse,
      HttpsProxy.callerObservations]

/-- Witness for C1 at a concrete failed attempt (status 407). -/
theorem c1_connect_failure_isolation_witness :
    (⟨407, "leftover"⟩ : HttpsProxy.ProxyResponse).statusCode ≠ 200 ∧
    HttpsProxy.callerObservations
        (HttpsProxy.tunnelAttemptTrace "CONNECT x:443 HTTP/1.1"
          "GET / HTTP/1.1" ⟨407, "leftover"⟩) =
      [some "leftover", none] :=
  ⟨by decide,
    (c1_connect_failure_isolation "CONNECT x:443 HTTP/1.1"
      "GET / HTTP/1.1" ⟨407, "leftover"⟩ (by decide)).2.2.2.2⟩

/-! ## C3 — cache bounds and eviction -/

/-- **C3 counterexample.** The claim states every cache in the system
never exceeds its configured maximum size, with a set at capacity
evicting exactly one oldest entry. The common-headers cache of
`https-proxy-agent` refutes it: its `set` (lines 199-202) never
evicts, and after 101 inserts with distinct keys its size is 101,
exceeding `CACHE_MAX_SIZE = 100`, the file's configured bound. -/
theorem c3_cache_bound_cex :
    (HttpsProxy.fillCommonHeaders 101).length = 101 ∧
    HttpsProxy.CACHE_MAX_SIZE <
      (HttpsProxy.fillCommonHeaders 101).length := by decide

/-- **C3 (amended).** The size-bounded caches behave as claimed, shown
for the TLS session cache of `https-proxy-agent`: a store keeps the
size within `CACHE_MAX_SIZE = 100`, and a store into a cache at
capacity first evicts exactly one entry — the oldest-inserted one —
and then inserts. The common-headers cache of the same file, however,
is not size-bounded: `commonHeadersCacheSet` is a plain `Map.set`
that never evicts and always retains the new entry. -/
theorem HttpsProxy.storeTlsSession_at_cap (k0 : String) (v0 : Nat)
    (rest : List (String × Nat)) (k : String) (v : Nat)
    (hcap : HttpsProxy.CACHE_MAX_SIZE ≤ ((k0, v0) :: rest).length) :
    HttpsProxy.storeTlsSession ((k0, v0) :: rest) k v =
      JsMap.set rest k v := by
  have hdel : JsMap.deleteKey ((k0, v0) :: rest) k0 = rest := by
    simp [JsMap.deleteKey]
  rw [HttpsProxy.storeTlsSession, if_pos hcap]
  simp [JsMap.firstKey, hdel]

theorem HttpsProxy.storeTlsSession_below_cap
    (cache : List (String × Nat)) (k : String) (v : Nat)
    (hlt : cache.length < HttpsProxy.CACHE_MAX_SIZE) :
    HttpsProxy.storeTlsSession cache k v = JsMap.set cache k v := by
  rw [HttpsProxy.storeTlsSession, if_neg (not_le.mpr hlt)]

theorem c3_cache_bound_amended (cache : List (String × Nat))
    (k : String) (v : Nat) (hle : cache.length ≤ 100) :
    (HttpsProxy.storeTlsSession cache k v).length ≤ 100 ∧
    (cache.length = 100 →
      ∃ k0 v0 rest, cache = (k0, v0) :: rest ∧
        HttpsProxy.storeTlsSession cache k v = JsMap.set rest k v) ∧
    HttpsProxy.commonHeadersCacheSet cache k v = JsMap.set cache k v ∧
    JsMap.get (HttpsProxy.commonHeadersCacheSet cache k v) k = some v := by
  refine ⟨?_, ?_, rfl, JsMap.get_set_self cache k v⟩
  · by_cases hcap : HttpsProxy.CACHE_MAX_SIZE ≤ cache.length
    · match cache, hcap with
      | (k0, v0) :: rest, hcap =>
        rw [HttpsProxy.storeTlsSession_at_cap k0 v0 rest k v hcap]
        have hlen := JsMap.length_set_le rest k v
        have : rest.length + 1 ≤ 100 := by
          simpa using hle
        omega
    · rw [HttpsProxy.storeTlsSession_below_cap cache k v
        (not_le.mp hcap)]
      have hlen := JsMap.length_set_le cache k v
      have : cache.length < 100 := not_le.mp hcap
      omega
  · intro hfull
    match cache, hfull with
    | (k0, v0) :: rest, hfull =>
      refine ⟨k0, v0, rest, rfl, ?_⟩
      exact HttpsProxy.storeTlsSession_at_cap k0 v0 rest k v
        (by rw [hfull]; exact le_of_eq rfl)

/-- Witness for C3 (amended) at a concrete one-entry cache. -/
theorem c3_cache_bound_amended_witness :
    ([("old", 1)] : List (String × Nat)).length ≤ 100 ∧
    (HttpsProxy.storeTlsSession [("old", 1)] "fresh" 2).length ≤ 100 :=
  ⟨by decide,
    (c3_cache_bound_amended [("old", 1)] "fresh" 2 (by decide)).1⟩

/-! ## C9 — unbounded pools skip placeholder accounting -/

/-- **C9.** When `maxSockets` and `maxTotalSockets` are both
`Infinity`, `incrementSockets` creates no placeholder (it returns
`null`) and leaves the whole pool state — sockets map and
`totalSocketCount` included — unchanged, and `decrementSockets` with a
`null` placeholder is a no-op, so placeholder accounting is entirely
skipped for unbounded pools. -/
theorem c9_unbounded_pool_skips_accounting (st : AgentBase.PoolState)
    (name : String) (h1 : st.maxSockets = none)
    (h2 : st.maxTotalSockets = none) :
    AgentBase.incrementSockets st name = (none, st) ∧
    AgentBase.decrementSockets st name none = st := by
  constructor
  · simp [AgentBase.incrementSockets, h1, h2]
  · cases hget : JsMap.get st.sockets name <;>
      simp [AgentBase.decrementSockets, hget]

/-- Witness for C9 at a concrete unbounded pool state. -/
theorem c9_unbounded_pool_skips_accounting_witness :
    AgentBase.incrementSockets
        ⟨[], 0, 0, none, none⟩ "localhost:80:" =
      (none, ⟨[], 0, 0, none, none⟩) :=
  (c9_unbounded_pool_skips_accounting ⟨[], 0, 0, none, none⟩
    "localhost:80:" rfl rfl).1

/-! ## C2 — admission accounting in `createSocket` -/

/-- **C2 counterexample.** The claim asserts that every tunnel attempt
through `createSocket` performs exactly one admission increment — a
fake socket pushed and `totalSocketCount` incremented — before
`connect` is invoked. On an agent whose `maxSockets` and
`maxTotalSockets` are both `Infinity` (the Node.js defaults),
`incrementSockets` returns `null` and pushes nothing: the whole
attempt runs with the pool state untouched and a `null` placeholder,
so no such increment is performed. -/
theorem c2_admission_cex :
    AgentBase.incrementSockets
        (⟨[], 0, 0, none, none⟩ : AgentBase.PoolState) "localhost:80:" =
      (none, ⟨[], 0, 0, none, none⟩) ∧
    (AgentBase.createSocket ⟨[], 0, 0, none, none⟩ "localhost:80:"
        AgentBase.ConnectOutcome.asyncSocket).1 =
      ⟨[], 0, 0, none, none⟩ ∧
    (AgentBase.createSocket ⟨[], 0, 0, none, none⟩ "localhost:80:"
        AgentBase.ConnectOutcome.asyncSocket).2 =
      [AgentBase.BrokerEvent.increment "localhost:80:" none,
       AgentBase.BrokerEvent.connectCall,
       AgentBase.BrokerEvent.decrement "localhost:80:" none] := by
  refine ⟨rfl, rfl, rfl⟩

/-- **C2 (amended).** For every tunnel attempt through `createSocket`
on a broker whose pool is bounded (`maxSockets` or `maxTotalSockets`
finite), exactly one admission increment — the placeholder pushed into
the origin's socket list and `totalSocketCount` incremented — is
performed synchronously before `connect` is invoked, and exactly one
matching decrement (same origin name, same placeholder) is performed
when the attempt settles, on every path: synchronous socket result,
synchronous agent delegation, asynchronous socket success,
asynchronous agent delegation, and asynchronous failure. The counter
returns exactly to its initial value: never zero and never two
decrements. When both bounds are `Infinity` the increment and the
decrement are still each invoked exactly once but deliberately
perform no accounting (see C9). -/
theorem c2_admission_balance_amended (st : AgentBase.PoolState)
    (name : String) (outcome : AgentBase.ConnectOutcome)
    (hbounded : ¬(st.maxSockets = none ∧ st.maxTotalSockets = none)) :
    (AgentBase.createSocket st name outcome).2 =
      [AgentBase.BrokerEvent.increment name (some st.nextId),
       AgentBase.BrokerEvent.connectCall,
       AgentBase.BrokerEvent.decrement name (some st.nextId)] ∧
    AgentBase.incrementCount
        (AgentBase.createSocket st name outcome).2 = 1 ∧
    AgentBase.decrementCount
        (AgentBase.createSocket st name outcome).2 = 1 ∧
    (AgentBase.incrementSockets st name).2.totalSocketCount =
      st.totalSocketCount + 1 ∧
    st.nextId ∈
      ((JsMap.get (AgentBase.incrementSockets st name).2.sockets
          name).getD []) ∧
    (AgentBase.createSocket st name outcome).1.totalSocketCount =
      st.totalSocketCount := by
  have hinc : AgentBase.incrementSockets st name =
      (some st.nextId,
        { st with
          sockets := JsMap.set st.sockets name
            (((JsMap.get st.sockets name).getD []) ++ [st.nextId])
          totalSocketCount := st.totalSocketCount + 1
          nextId := st.nextId + 1 }) := by
    simp only [AgentBase.incrementSockets, if_neg hbounded]
  have hget :
      JsMap.get (JsMap.set st.sockets name
          (((JsMap.get st.sockets name).getD []) ++ [st.nextId]))
        name =
      some (((JsMap.get st.sockets name).getD []) ++ [st.nextId]) :=
    JsMap.get_set_self _ _ _
  have hmem :
      st.nextId ∈ ((JsMap.get st.sockets name).getD []) ++ [st.nextId] := by
    simp
  refine ⟨?_, ?_, ?_, ?_, ?_, ?_⟩
  · cases outcome <;> simp [AgentBase.createSocket, hinc]
  · cases outcome <;>
      simp [AgentBase.createSocket, hinc, AgentBase.incrementCount]
  · cases outcome <;>
      simp [AgentBase.createSocket, hinc, AgentBase.decrementCount]
  · rw [hinc]
  · rw [hinc]
    simp only [hget, Option.getD_some]
    exact hmem
  · cases outcome <;>
      simp [AgentBase.createSocket, hinc, AgentBase.decrementSockets,
        hget, hmem]

/-- Witness for C2 (amended) at a concrete bounded pool
(`maxSockets = 5`), on the asynchronous-failure path. -/
theorem c2_admission_balance_amended_witness :
    ¬((⟨[], 0, 0, some 5, none⟩ : AgentBase.PoolState).maxSockets =
        none ∧
      (⟨[], 0, 0, some 5, none⟩ : AgentBase.PoolState).maxTotalSockets =
        none) ∧
    (AgentBase.createSocket ⟨[], 0, 0, some 5, none⟩ "localhost:80:"
        AgentBase.ConnectOutcome.asyncError).1.totalSocketCount = 0 :=
  ⟨by decide,
    (c2_admission_balance_amended ⟨[], 0, 0, some 5, none⟩
      "localhost:80:" AgentBase.ConnectOutcome.asyncError
      (by decide)).2.2.2.2.2⟩

/-! ## C10 — the `isSecureEndpoint` fallback cache -/

/-- **C10 counterexample.** The claim asserts that once the
stack-inspection fallback has cached a result for a cache key, every
later fallback call with the same key on the same agent returns that
cached boolean regardless of its own call stack. The cache is a
single slot: a first fallback call with options `{}` (key `":"`) on an
https-looking stack caches `true`; an intervening fallback call with
no options (key `"no-options"`) overwrites the slot; a third call with
key `":"` again then re-inspects its (now non-https) stack and
returns `false` — two fallback runs with the same key disagree. -/
theorem c10_secure_endpoint_cache_cex :
    (AgentBase.isSecureEndpoint ⟨none, none⟩ (some ⟨none, none⟩)
        "    at Agent.createConnection (https.js:130:5)").1 = true ∧
    (AgentBase.isSecureEndpoint
        (AgentBase.isSecureEndpoint
          (AgentBase.isSecureEndpoint ⟨none, none⟩ (some ⟨none, none⟩)
            "    at Agent.createConnection (https.js:130:5)").2
          none "    at plain.js:1:1").2
        (some ⟨none, none⟩) "    at plain.js:1:1").1 = false := by
  refine ⟨by decide, by decide⟩

/-- **C10 (amended).** The fallback cache holds a single
(key, result) slot. A fallback call whose cache key is currently the
cached key returns the cached boolean unchanged, independent of the
call stack at the time of the call; hence two same-key fallback runs
agree as long as no intervening fallback call with a different key
overwrote the slot. (With such an intervening call the result is
recomputed from the then-current stack and may differ, as the
counterexample shows.) -/
theorem c10_secure_endpoint_cache_amended (st : AgentBase.SecCacheState)
    (options : Option AgentBase.SecOpts) (stack : String) (v : Bool)
    (hfb : AgentBase.reachesFallback options)
    (hkey : st.cachedEndpointKey = some (AgentBase.secCacheKey options))
    (hval : st.cachedSecureEndpoint = some v) :
    AgentBase.isSecureEndpoint st options stack = (v, st) := by
  have hfall :
      AgentBase.isSecureEndpoint.isSecureFallback st options stack =
        (v, st) := by
    rw [AgentBase.isSecureEndpoint.isSecureFallback]
    rw [if_pos ⟨hkey, by rw [hval]; exact rfl⟩]
    rw [hval]
    rfl
  match options, hfb with
  | none, _ =>
    rw [AgentBase.isSecureEndpoint]
    exact hfall
  | some o, ⟨hse, hp⟩ =>
    rw [AgentBase.isSecureEndpoint, hse, hp]
    exact hfall

/-- Witness for C10 (amended): a cached `true` under key `":"` is
returned on a plainly non-https stack. -/
theorem c10_secure_endpoint_cache_amended_witness :
    AgentBase.isSecureEndpoint ⟨some ":", some true⟩
        (some ⟨none, none⟩) "    at plain.js:1:1" =
      (true, ⟨some ":", some true⟩) :=
  c10_secure_endpoint_cache_amended ⟨some ":", some true⟩
    (some ⟨none, none⟩) "    at plain.js:1:1" true
    (by exact ⟨rfl, rfl⟩) rfl rfl

/-! ## C5 — SOCKS scheme decides client-side DNS resolution -/

/-- **C5.** `parseSocksURL` determines client-side DNS resolution from
the scheme: `socks4` and `socks5` demand it (`lookup = true`, with
types 4 and 5); `socks4a`, `socks5h` and bare `socks` skip it; any
other scheme produces a synchronous error. In `connect`, when
`shouldLookup` is false the literal hostname passes to the handshake
untouched with zero resolver calls; when it is true, the handshake
host is the resolver's answer (shown for a cache miss and for the
cache-disabled configuration), obtained before the handshake. -/
theorem c5_socks_scheme_resolution :
    SocksProxy.parseSocksURL "socks4:" =
      Except.ok { lookup := true, type := 4 } ∧
    SocksProxy.parseSocksURL "socks5:" =
      Except.ok { lookup := true, type := 5 } ∧
    SocksProxy.parseSocksURL "socks4a:" =
      Except.ok { lookup := false, type := 4 } ∧
    SocksProxy.parseSocksURL "socks5h:" =
      Except.ok { lookup := false, type := 5 } ∧
    SocksProxy.parseSocksURL "socks:" =
      Except.ok { lookup := false, type := 5 } ∧
    (∀ s, SocksProxy.stripColon s ≠ "socks4" →
      SocksProxy.stripColon s ≠ "socks4a" →
      SocksProxy.stripColon s ≠ "socks5" →
      SocksProxy.stripColon s ≠ "socks" →
      SocksProxy.stripColon s ≠ "socks5h" →
      ∃ e, SocksProxy.parseSocksURL s = Except.error e) ∧
    (∀ en cache now host f,
      SocksProxy.resolveDestinationHost en false cache now host f =
        (host, cache, 0)) ∧
    (∀ cache now host f,
      SocksProxy.resolveDestinationHost false true cache now host f =
        (f host, cache, 1)) ∧
    (∀ cache now host f, JsMap.get cache host = none →
      (SocksProxy.resolveDestinationHost true true cache now host
          f).1 = f host ∧
      (SocksProxy.resolveDestinationHost true true cache now host
          f).2.2 = 1) := by
  refine ⟨rfl, rfl, rfl, rfl, rfl, ?_, ?_, ?_, ?_⟩
  · intro s h1 h2 h3 h4 h5
    refine ⟨"A socks protocol must be specified! Got: " ++
      SocksProxy.stripColon s, ?_⟩
    simp [SocksProxy.parseSocksURL, h1, h2, h3, h4, h5]
  · intro en cache now host f
    simp [SocksProxy.resolveDestinationHost]
  · intro cache now host f
    simp [SocksProxy.resolveDestinationHost]
  · intro cache now host f hmiss
    simp [SocksProxy.resolveDestinationHost, hmiss]

/-- Witness for C5: the unknown scheme `http:` errors and the
pass-through/resolution conjuncts hold at concrete inputs. -/
theorem c5_socks_scheme_resolution_witness :
    (∃ e, SocksProxy.parseSocksURL "http:" = Except.error e) ∧
    SocksProxy.resolveDestinationHost true false [] 0 "example.com"
        (fun _ => "93.184.216.34") = ("example.com", [], 0) ∧
    (SocksProxy.resolveDestinationHost true true [] 0 "example.com"
        (fun _ => "93.184.216.34")).1 = "93.184.216.34" :=
  ⟨(c5_socks_scheme_resolution).2.2.2.2.2.1 "http:" (by decide)
      (by decide) (by decide) (by decide) (by decide),
    (c5_socks_scheme_resolution).2.2.2.2.2.2.1 true [] 0 "example.com"
      (fun _ => "93.184.216.34"),
    ((c5_socks_scheme_resolution).2.2.2.2.2.2.2.2 [] 0 "example.com"
      (fun _ => "93.184.216.34") rfl).1⟩

/-! ## C6 — DNS cache TTL behaviour -/

/-- **C6.** With client-side resolution required and the DNS cache
enabled: a first lookup of a host not in the cache calls the resolver
exactly once and stores its answer with the current timestamp; a
second lookup of the same host within `DNS_CACHE_TTL` is served from
the cache with zero resolver calls (so the two lookups cost exactly
one resolver call in total) and leaves the cache unchanged; a lookup
whose cached entry is older than the TTL is treated as a miss,
invokes the resolver again, and stores the new result with the new
timestamp. -/
theorem c6_dns_cache_ttl (cache : List (String × SocksProxy.DNSCacheEntry))
    (host : String) (f1 f2 : String → String) (t1 t2 : Int)
    (hmiss : JsMap.get cache host = none) :
    SocksProxy.resolveDestinationHost true true cache t1 host f1 =
      (f1 host,
        JsMap.set cache host { address := f1 host, timestamp := t1 },
        1) ∧
    (t2 - t1 < SocksProxy.DNS_CACHE_TTL →
      SocksProxy.resolveDestinationHost true true
          (JsMap.set cache host { address := f1 host, timestamp := t1 })
          t2 host f2 =
        (f1 host,
          JsMap.set cache host { address := f1 host, timestamp := t1 },
          0)) ∧
    (SocksProxy.DNS_CACHE_TTL ≤ t2 - t1 →
      (SocksProxy.resolveDestinationHost true true
          (JsMap.set cache host { address := f1 host, timestamp := t1 })
          t2 host f2).1 = f2 host ∧
      (SocksProxy.resolveDestinationHost true true
          (JsMap.set cache host { address := f1 host, timestamp := t1 })
          t2 host f2).2.2 = 1 ∧
      JsMap.get (SocksProxy.resolveDestinationHost true true
          (JsMap.set cache host { address := f1 host, timestamp := t1 })
          t2 host f2).2.1 host =
        some { address := f2 host, timestamp := t2 }) := by
  have hget := JsMap.get_set_self cache host
    ({ address := f1 host, timestamp := t1 } : SocksProxy.DNSCacheEntry)
  refine ⟨?_, ?_, ?_⟩
  · simp [SocksProxy.resolveDestinationHost, hmiss]
  · intro hfresh
    simp [SocksProxy.resolveDestinationHost, hget, hfresh]
  · intro hstale
    have hnot : ¬(t2 - t1 < SocksProxy.DNS_CACHE_TTL) :=
      not_lt.mpr hstale
    simp [SocksProxy.resolveDestinationHost, hget, hnot,
      JsMap.get_set_self]

/-- Witness for C6 at a concrete host, a hit 1 ms later and a miss
after the 5-minute TTL. -/
theorem c6_dns_cache_ttl_witness :
    JsMap.get ([] : List (String × SocksProxy.DNSCacheEntry))
        "example.com" = none ∧
    ((1 : Int) - 0 < SocksProxy.DNS_CACHE_TTL ∧
      SocksProxy.resolveDestinationHost true true
          (JsMap.set [] "example.com"
            { address := "93.184.216.34", timestamp := 0 })
          1 "example.com" (fun _ => "10.0.0.1") =
        ("93.184.216.34",
          JsMap.set [] "example.com"
            { address := "93.184.216.34", timestamp := 0 },
          0)) ∧
    (SocksProxy.DNS_CACHE_TTL ≤ (300000 : Int) - 0 ∧
      (SocksProxy.resolveDestinationHost true true
          (JsMap.set [] "example.com"
            { address := "93.184.216.34", timestamp := 0 })
          300000 "example.com" (fun _ => "10.0.0.1")).2.2 = 1) :=
  ⟨rfl,
    ⟨by decide,
      (c6_dns_cache_ttl [] "example.com" (fun _ => "93.184.216.34")
        (fun _ => "10.0.0.1") 0 1 rfl).2.1 (by decide)⟩,
    ⟨by decide,
      ((c6_dns_cache_ttl [] "example.com" (fun _ => "93.184.216.34")
        (fun _ => "10.0.0.1") 0 300000 rfl).2.2 (by decide)).2.1⟩⟩

/-! ## C7 — proxy-resolution caching and default routing -/

/-- **C7.** In `ProxyAgent.connect`, on a resolution-cache miss: a
falsy ("no proxy") resolver answer is never stored — the cache is
returned unchanged — and the request is routed to the default pooled
agent selected by the secure flag (`httpsAgent` when secure,
`httpAgent` otherwise, the dispatcher's only two defaults); a truthy
resolver answer is stored in the cache under the destination URL and
the request is routed to a proxying agent for it. -/
theorem c7_resolution_cache (cache : List (String × String))
    (url p : String) (secure : Bool)
    (hmiss : JsMap.get cache url = none) :
    ProxyDispatch.dispatcherResolve cache url "" secure =
      (ProxyDispatch.Route.defaultAgent secure, cache) ∧
    (p ≠ "" →
      (ProxyDispatch.dispatcherResolve cache url p secure).1 =
        ProxyDispatch.Route.proxiedAgent p ∧
      JsMap.get
          (ProxyDispatch.dispatcherResolve cache url p secure).2 url =
        some p) := by
  constructor
  · simp [ProxyDispatch.dispatcherResolve, hmiss]
  · intro hp
    constructor
    · simp [ProxyDispatch.dispatcherResolve, hmiss, hp]
    · simp [ProxyDispatch.dispatcherResolve, hmiss, hp,
        JsMap.get_set_self]

/-- Witness for C7 at a concrete destination URL and proxy. -/
theorem c7_resolution_cache_witness :
    JsMap.get ([] : List (String × String)) "http://x.test/" = none ∧
    ProxyDispatch.dispatcherResolve [] "http://x.test/" "" true =
      (ProxyDispatch.Route.defaultAgent true, []) ∧
    (ProxyDispatch.dispatcherResolve [] "http://x.test/"
        "http://proxy:8080" false).1 =
      ProxyDispatch.Route.proxiedAgent "http://proxy:8080" :=
  ⟨rfl,
    (c7_resolution_cache [] "http://x.test/" "http://proxy:8080" true
      rfl).1,
    ((c7_resolution_cache [] "http://x.test/" "http://proxy:8080" false
      rfl).2 (by decide)).1⟩

/-! ## C8 — forward-proxy header merging -/

/-- **C8 counterexample.** The claim asserts the default proxy headers
never overwrite a caller-set header of the same name, matched
case-insensitively. Refuted twice over: with proxy credentials
configured, the derived `Proxy-Authorization` value unconditionally
overwrites the caller's `Proxy-Authorization`; and the
`Proxy-Connection` guard is an exact-case object lookup, so a
caller's lowercase `proxy-connection` does not suppress the default,
which then wins the case-insensitive `req.setHeader` race. -/
theorem c8_header_merge_cex :
    HttpProxy.reqGetHeader
        (HttpProxy.applyHeadersToRequest []
          (HttpProxy.buildForwardHeaders
            [("Proxy-Authorization", "Bearer token123")]
            (some "Basic dXNlcjpwdw==") "close"))
        "Proxy-Authorization" = some "Basic dXNlcjpwdw==" ∧
    HttpProxy.reqGetHeader
        (HttpProxy.applyHeadersToRequest []
          (HttpProxy.buildForwardHeaders
            [("proxy-connection", "keep-alive")] none "close"))
        "Proxy-Connection" = some "close" := by
  refine ⟨by decide, by decide⟩

/-- **C8 (amended).** The `Proxy-Authorization` value derived from
embedded proxy credentials is assigned unconditionally, overwriting
any caller-set `Proxy-Authorization`; the `Proxy-Connection` default
is merged only when the caller's proxy-headers object holds no truthy
value under the exact, case-sensitively matched name
`Proxy-Connection` (in which case the caller's value survives), and
header application to the request then overwrites
case-insensitively, last write winning. -/
theorem c8_header_merge_amended (proxyHeaders : List (String × String))
    (auth : Option String) (pc a : String) :
    (auth = some a →
      JsMap.get (HttpProxy.buildForwardHeaders proxyHeaders auth pc)
          "Proxy-Authorization" = some a) ∧
    (HttpProxy.jsTruthy (JsMap.get proxyHeaders "Proxy-Connection") =
        true →
      JsMap.get (HttpProxy.buildForwardHeaders proxyHeaders auth pc)
          "Proxy-Connection" =
        JsMap.get proxyHeaders "Proxy-Connection") ∧
    (HttpProxy.jsTruthy (JsMap.get proxyHeaders "Proxy-Connection") =
        false →
      JsMap.get (HttpProxy.buildForwardHeaders proxyHeaders auth pc)
          "Proxy-Connection" = some pc) := by
  cases auth with
  | none =>
    refine ⟨fun h => Option.noConfusion h, ?_, ?_⟩
    · intro htru
      simp [HttpProxy.buildForwardHeaders, htru]
    · intro hfal
      simp [HttpProxy.buildForwardHeaders, hfal, JsMap.get_set_self]
  | some x =>
    have hPC : JsMap.get
        (JsMap.set proxyHeaders "Proxy-Authorization" x)
        "Proxy-Connection" =
        JsMap.get proxyHeaders "Proxy-Connection" :=
      JsMap.get_set_ne proxyHeaders "Proxy-Connection"
        "Proxy-Authorization" x (by decide)
    refine ⟨?_, ?_, ?_⟩
    · intro hauth
      injection hauth with hx
      subst hx
      by_cases htru : HttpProxy.jsTruthy
          (JsMap.get proxyHeaders "Proxy-Connection") = true
      · simp [HttpProxy.buildForwardHeaders, hPC, htru,
          JsMap.get_set_self]
      · have hfal : HttpProxy.jsTruthy
            (JsMap.get proxyHeaders "Proxy-Connection") = false := by
          simpa using htru
        simp [HttpProxy.buildForwardHeaders, hPC, hfal,
          JsMap.get_set_self,
          JsMap.get_set_ne _ "Proxy-Authorization" "Proxy-Connection"
            pc (by decide)]
    · intro htru
      simp [HttpProxy.buildForwardHeaders, hPC, htru]
    · intro hfal
      simp [HttpProxy.buildForwardHeaders, hPC, hfal,
        JsMap.get_set_self]

/-- Witness for C8 (amended): with credentials present the derived
value lands in `Proxy-Authorization`, and a caller's truthy
exact-case `Proxy-Connection` survives. -/
theorem c8_header_merge_amended_witness :
    JsMap.get
        (HttpProxy.buildForwardHeaders [("Proxy-Connection", "close")]
          (some "Basic dXNlcjpwdw==") "Keep-Alive")
        "Proxy-Authorization" = some "Basic dXNlcjpwdw==" ∧
    JsMap.get
        (HttpProxy.buildForwardHeaders [("Proxy-Connection", "close")]
          (some "Basic dXNlcjpwdw==") "Keep-Alive")
        "Proxy-Connection" = some "close" :=
  ⟨(c8_header_merge_amended [("Proxy-Connection", "close")]
      (some "Basic dXNlcjpwdw==") "Keep-Alive"
      "Basic dXNlcjpwdw==").1 rfl,
    ((c8_header_merge_amended [("Proxy-Connection", "close")]
      (some "Basic dXNlcjpwdw==") "Keep-Alive"
      "Basic dXNlcjpwdw==").2.1 (by decide)).trans (by decide)⟩

/-! ## C4 — dispatcher destruction and LRU eviction -/

/-- **C4 counterexample.** The claim asserts destroying the dispatcher
destroys every cached Tunnel instance exactly once. `destroy()` first
destroys each cached agent via `cache.forEach` and then calls
`cache.clear()`, whose `lru-cache@7` `dispose` hook —
`(agent) => agent.destroy()` — destroys every entry a second time:
with one cached agent (id 7), `destroy()` issues two `destroy`
calls on it. -/
theorem c4_destroy_cex :
    ProxyDispatch.proxyAgentDestroyCalls
        [("https:+http://proxy:8080", 7)] = [7, 7] ∧
    (ProxyDispatch.proxyAgentDestroyCalls
        [("https:+http://proxy:8080", 7)]).count 7 = 2 := by
  refine ⟨rfl, rfl⟩

/-- **C4 (amended).** Destroying the dispatcher calls `destroy()` on
every cached Tunnel instance exactly twice — once through the
explicit `forEach` and once more through the LRU `dispose` hook fired
by `cache.clear()` — and eviction from the bounded LRU on inserting a
fresh key at capacity removes exactly the least-recently-used entry
and destroys that evicted instance exactly once (below capacity no
instance is destroyed). -/
theorem c4_destroy_amended (c : List (String × Nat)) (k : String)
    (v a : Nat) :
    ((c.map (·.2)).count a = 1 →
      (ProxyDispatch.proxyAgentDestroyCalls c).count a = 2) ∧
    (c.length < ProxyDispatch.LRU_MAX →
      ProxyDispatch.lruSetFresh c k v = (c ++ [(k, v)], [])) ∧
    (∀ k0 v0 rest, c = (k0, v0) :: rest →
      ProxyDispatch.LRU_MAX ≤ c.length →
      ProxyDispatch.lruSetFresh c k v = (rest ++ [(k, v)], [v0])) := by
  refine ⟨?_, ?_, ?_⟩
  · intro h1
    simp [ProxyDispatch.proxyAgentDestroyCalls, List.count_append,
      List.map_reverse, List.count_reverse, h1]
  · intro hlt
    simp [ProxyDispatch.lruSetFresh, not_le.mpr hlt]
  · intro k0 v0 rest hc hcap
    subst hc
    have hcap' : ProxyDispatch.LRU_MAX ≤ rest.length + 1 := by
      simpa using hcap
    simp [ProxyDispatch.lruSetFresh, hcap']

/-- Witness for C4 (amended): one cached agent is destroyed twice on
dispatcher destruction, and a fresh insert below capacity evicts
nothing. -/
theorem c4_destroy_amended_witness :
    (ProxyDispatch.proxyAgentDestroyCalls
        [("http:+http://proxy:3128", 9)]).count 9 = 2 ∧
    ProxyDispatch.lruSetFresh [("http:+http://proxy:3128", 9)]
        "https:+http://proxy:3128" 10 =
      ([("http:+http://proxy:3128", 9),
        ("https:+http://proxy:3128", 10)], []) :=
  ⟨(c4_destroy_amended [("http:+http://proxy:3128", 9)]
      "https:+http://proxy:3128" 10 9).1 (by decide),
    (c4_destroy_amended [("http:+http://proxy:3128", 9)]
      "https:+http://proxy:3128" 10 9).2.1 (by decide)⟩
